import Mathlib

/-!
Shallow embedding of the PuLP model built by `src/main.py` of the `tax_min`
repository, together with proofs settling the frozen claims about it.

The model-building code declares continuous and binary LP variables for a
household of three persons over an 11-year horizon and adds linear
constraints relating them.  We embed an assignment of rational values to
every declared variable as a structure, and the conjunction of every
constraint the script adds (including the bounds attached to the variable
declarations) as the predicate `Feasible`.  Python decimal literals are
modelled as exact rationals; `round(x, -2)` (round to the nearest multiple
of 100) is modelled with Mathlib's `round` (no tie at an exact half of a
hundred occurs for the schedules used, so the tie-breaking convention is
irrelevant).
-/

namespace TaxMin

/-- The three persons of the household: the two seniors `m` and `p`, and the
salaried non-senior `n` (`Persons = SeniorPersons + ['n']` in the source). -/
inductive Person
  | m
  | p
  | n
deriving DecidableEq, Fintype

/-- The two investment vehicles: `i` (interest-bearing) and `g` (growth). -/
inductive Investment
  | i
  | g
deriving DecidableEq, Fintype

/-- The three tax brackets, keyed `'A'`, `'B'`, `'C'` in the source
(`string.ascii_uppercase[cnt]` for `cnt in range(3)`). -/
inductive Bracket
  | A
  | B
  | C
deriving DecidableEq, Fintype

/-- Horizon: `Y = 10+1` in the source; periods are `0 ≤ y < Y`. -/
def Y : ℕ := 10 + 1

/-- Constant `VERY_LARGE_NUM = 1e8`, the big-M constant. -/
def VERY_LARGE_NUM : ℚ := 100000000

/-- Constant `VERY_SMALL_NUM = 1e-3`, the strict-inequality slack. -/
def VERY_SMALL_NUM : ℚ := 1/1000

/-- Constant `max_HR_fraction = 0.5`: the ceiling on the summed home-rental shares. -/
def max_HR_fraction : ℚ := 1/2

/-- Schedule `SAL_c[y] = round(30e5 * (1 + 0.1) ** y, -2)`: salary, 10%
yearly growth rounded to the nearest hundred. -/
def SAL_c (y : ℕ) : ℚ := 100 * ((round ((3000000 : ℚ) * (11/10) ^ y / 100) : ℤ) : ℚ)

/-- Schedule `BS_c[y] = 0.4 * SAL_c[y]`: basic salary is 40% of salary. -/
def BS_c (y : ℕ) : ℚ := (4/10) * SAL_c y

/-- Schedule `SR_c[y] = round(1.74e5 * (1 + 0.1) ** y, -2)`: shop rental. -/
def SR_c (y : ℕ) : ℚ := 100 * ((round ((174000 : ℚ) * (11/10) ^ y / 100) : ℤ) : ℚ)

/-- Limit `DF_lim`: the fixed-deductions limit, `0.5e5` for every person. -/
def DF_lim : Person → ℚ := fun _ => 50000

/-- Limit `D_lim`: the total-deductions limit per person. -/
def D_lim : Person → ℚ
  | .m => 300000
  | .p => 300000
  | .n => 275000

/-- Limit `DD_lim[p] = D_lim[p] - DF_lim[p]`: the discretionary-deductions limit. -/
def DD_lim (q : Person) : ℚ := D_lim q - DF_lim q

/-- Constants `A0`: initial wealth per person per vehicle. -/
def A0 : Person → Investment → ℚ
  | .m, .i => 2000000
  | .m, .g => 1159500
  | .p, .i => 1700000
  | .p, .g => 225000
  | .n, _ => 0

/-- Rates `r[p][i][y]`: the growth-rate schedules.  Each is a constant list of
length `Y` in the source (`[0.08887] * Y` and so on), so the year argument
is unused. -/
def r (q : Person) (iv : Investment) (_y : ℕ) : ℚ :=
  match q, iv with
  | .m, .i => 8887/100000
  | .m, .g => 9844/100000
  | .p, .i => 8626/100000
  | .p, .g => 7978/100000
  | .n, _ => 9308/100000

/-- Allocation fraction `d`, built in the source as a per-person list
`[1] * Y`: the constant 1 for every person and period. -/
def d (_q : Person) (_y : ℕ) : ℚ := 1

/-- Discount schedule `rho = [round((1-0)**y, 4) for y in range(Y)]`
(identically 1). -/
def rho (y : ℕ) : ℚ := ((round ((1 - 0 : ℚ) ^ y * 10000) : ℤ) : ℚ) / 10000

/-- The constant dictionary `BS`: zero for the seniors, `BS_c` for `n`. -/
def BS : Person → ℕ → ℚ
  | .n => BS_c
  | _ => fun _ => 0

/-- The constant dictionary `SAL`: zero for the seniors, `SAL_c` for `n`. -/
def SAL : Person → ℕ → ℚ
  | .n => SAL_c
  | _ => fun _ => 0

/-- The constant dictionary `SR`: `SR_c` for `m`, zero for `p` and `n`. -/
def SR : Person → ℕ → ℚ
  | .m => SR_c
  | _ => fun _ => 0

/-- A rational value for every LP variable the script declares.  Fields keep
the source's names: `f` (home-rental shares, declared for `m` and `p`),
`DF`/`D` (fixed/total deductions), `HR` (home-rental income), `I` (accrued
income), `A` (wealth), `t` (tax liability), `F` (net new investment), `T`
(taxable income), `E` (expense), `K` (disposable income), `b` (bracket
indicator binaries) and `tax_comp` (bracket tax contributions). -/
structure Assignment where
  f : Person → ℚ
  DF : Person → ℕ → ℚ
  D : Person → ℕ → ℚ
  HR : Person → ℕ → ℚ
  I : Person → Investment → ℕ → ℚ
  A : Person → Investment → ℕ → ℚ
  t : Person → ℕ → ℚ
  F : Person → Investment → ℕ → ℚ
  T : Person → ℕ → ℚ
  E : Person → ℕ → ℚ
  K : Person → ℕ → ℚ
  b : Person → ℕ → Bracket → ℚ
  tax_comp : Person → ℕ → Bracket → ℚ

/-- Feasibility: the conjunction of every variable bound and every
constraint `src/main.py` adds to the problem.  Each field is one
declaration-site bound or one `problem += ...` line (quantified over the
loops surrounding it).  Note two faithfully reproduced quirks of the
source: `DF` is declared with `LpVariable.dict(name, range(Y), DF_lim[p])`,
whose third positional argument is the LOWER bound, so `DF` is only
bounded below by `DF_lim`; and the income constraint uses the same-period
rate and balance. -/
structure Feasible (v : Assignment) : Prop where
  f_bnd : ∀ q : Person, q ≠ .n → 0 ≤ v.f q ∧ v.f q ≤ 1
  DF_bnd : ∀ q : Person, ∀ y < Y, DF_lim q ≤ v.DF q y
  D_bnd : ∀ q : Person, ∀ y < Y, 0 ≤ v.D q y ∧ v.D q y ≤ D_lim q
  HR_bnd : ∀ q : Person, ∀ y < Y, 0 ≤ v.HR q y
  I_bnd : ∀ q : Person, ∀ iv : Investment, ∀ y < Y, 0 ≤ v.I q iv y
  A_bnd : ∀ q : Person, ∀ iv : Investment, ∀ y < Y, 0 ≤ v.A q iv y
  t_bnd : ∀ q : Person, ∀ y < Y, 0 ≤ v.t q y
  T_bnd : ∀ q : Person, ∀ y < Y, 0 ≤ v.T q y
  E_bnd : ∀ q : Person, ∀ y < Y, 0 ≤ v.E q y
  K_bnd : ∀ q : Person, ∀ y < Y, 0 ≤ v.K q y
  b_bin : ∀ q : Person, ∀ y < Y, ∀ k : Bracket, v.b q y k = 0 ∨ v.b q y k = 1
  comp_bnd : ∀ q : Person, ∀ y < Y, ∀ k : Bracket, 0 ≤ v.tax_comp q y k
  init : ∀ q : Person, ∀ iv : Investment, v.A q iv 0 = A0 q iv
  income : ∀ q : Person, ∀ iv : Investment, ∀ y < Y,
    v.I q iv y = r q iv y * v.A q iv y
  wealth_i : ∀ q : Person, ∀ y < Y, 0 < y →
    v.A q .i y = v.A q .i (y - 1) + v.F q .i y
  wealth_g : ∀ q : Person, ∀ y < Y, 0 < y →
    v.A q .g y = v.A q .g (y - 1) + v.F q .g y + v.I q .g y
  ded_lb : ∀ q : Person, ∀ y < Y, v.D q y ≥ v.DF q y
  ded_ub : ∀ q : Person, ∀ y < Y, v.D q y ≤ v.DF q y + DD_lim q
  HR_m : ∀ y < Y, v.HR .m y = v.f .m * BS .n y
  HR_p : ∀ y < Y, v.HR .p y = v.f .p * BS .n y
  f_sum : ∀ _y < Y, v.f .m + v.f .p ≤ max_HR_fraction
  taxable : ∀ q : Person, ∀ y < Y,
    v.T q y = SAL q y + SR q y + v.HR q y + v.I q .i y + v.I q .g y
      - v.D q y - (3/10) * (v.HR q y + SR q y)
      - (12/100 + 1/10) * BS q y
      - (v.f .m + v.f .p - 1/10) * BS q y
  b_sum : ∀ q : Person, ∀ y < Y, v.b q y .A + v.b q y .B + v.b q y .C = 1
  brA_ub : ∀ q : Person, ∀ y < Y,
    v.T q y ≤ 500000 + (1 - v.b q y .A) * VERY_LARGE_NUM
  brB_lb : ∀ q : Person, ∀ y < Y,
    v.T q y ≥ (500000 + VERY_SMALL_NUM) * v.b q y .B
  brB_ub : ∀ q : Person, ∀ y < Y,
    v.T q y ≤ 1000000 + (1 - v.b q y .B) * VERY_LARGE_NUM
  brC_lb : ∀ q : Person, ∀ y < Y,
    v.T q y ≥ (1000000 + VERY_SMALL_NUM) * v.b q y .C
  compA : ∀ q : Person, ∀ y < Y, v.tax_comp q y .A ≤ 0
  compB_ub1 : ∀ q : Person, ∀ y < Y,
    v.tax_comp q y .B ≤ (104/100) * ((2/10) * v.T q y - 87500 * v.b q y .B)
  compB_ub2 : ∀ q : Person, ∀ y < Y,
    v.tax_comp q y .B ≤ (104/100) * (VERY_LARGE_NUM * v.b q y .B)
  compB_lb : ∀ q : Person, ∀ y < Y,
    v.tax_comp q y .B ≥
      (104/100) * ((2/10) * v.T q y - 87500 - VERY_LARGE_NUM * (1 - v.b q y .B))
  compC_ub1 : ∀ q : Person, ∀ y < Y,
    v.tax_comp q y .C ≤ (104/100) * ((3/10) * v.T q y - 187500 * v.b q y .C)
  compC_ub2 : ∀ q : Person, ∀ y < Y,
    v.tax_comp q y .C ≤ (104/100) * (VERY_LARGE_NUM * v.b q y .C)
  compC_lb : ∀ q : Person, ∀ y < Y,
    v.tax_comp q y .C ≥
      (104/100) * ((3/10) * v.T q y - 187500 - VERY_LARGE_NUM * (1 - v.b q y .C))
  tax_tot : ∀ q : Person, ∀ y < Y,
    v.t q y = v.tax_comp q y .A + v.tax_comp q y .B + v.tax_comp q y .C
  exp_sen : ∀ q : Person, q ≠ .n → ∀ y < Y, v.E q y = SR q y + v.I q .i 0
  exp_n : ∀ y < Y, v.E .n y = BS .n y + v.HR .m y + v.HR .p y
  disp : ∀ q : Person, ∀ y < Y,
    v.K q y = SAL q y + SR q y + v.HR q y + v.I q .i y + v.DF q y
      - v.D q y - v.E q y - v.t q y
  inv_g : ∀ q : Person, ∀ y < Y, v.F q .g y = d q y * v.K q y
  inv_i : ∀ q : Person, ∀ y < Y, v.F q .i y = (1 - d q y) * v.K q y

/-- The progressive bracket function the constraints of the source actually
pin `t` to (derived below in `C1_tax_formula`): zero up to 500000, then
`1.04 * (0.2*T - 87500)`, then `1.04 * (0.3*T - 187500)`, the per-bracket
expressions appearing verbatim in the `tax_comp` constraints. -/
def Gmodel (T : ℚ) : ℚ :=
  if T ≤ 500000 then 0
  else if T ≤ 1000000 then (104/100) * ((2/10) * T - 87500)
  else (104/100) * ((3/10) * T - 187500)

/-- The bracket function exactly as claim C1 words it (thresholds 500000 and
1000000, marginal rates 0, 20%, 30%, liability = cumulative tax at the top
of the lower brackets plus the marginal rate times the excess).  This
definition follows the claim, not the source; the source pins `t` to
`Gmodel` instead. -/
def Gclaim (T : ℚ) : ℚ :=
  if T ≤ 500000 then 0
  else if T ≤ 1000000 then (2/10) * (T - 500000)
  else 100000 + (3/10) * (T - 1000000)

/-!
A concrete feasible point.  The defs below are not part of the embedding of
the source; they construct one explicit solution of the constraint system,
used as the concrete input of the witness theorems.  The choice variables
are fixed (`f = (1/4, 1/4)`, `DF` at 70000 for `m` in year 0 and 50000
otherwise, `D` at its cap, `HR` of `n` at 1000) and every remaining
variable is computed forward from the constraints; the growth-vehicle
balance solves the simultaneous system `A = Aprev + (kbase - t) + r*A`,
`t = Gmodel (tbase + r*A)` bracket by bracket.
-/

/-- Chosen home-rental shares of the feasible point. -/
def f0 : Person → ℚ
  | .m => 1/4
  | .p => 1/4
  | .n => 0

/-- Chosen fixed deductions of the feasible point. -/
def DF0 (q : Person) (y : ℕ) : ℚ :=
  if q = Person.m ∧ y = 0 then 70000 else 50000

/-- Chosen total deductions of the feasible point (at each person's cap). -/
def D0 (q : Person) (_y : ℕ) : ℚ :=
  match q with
  | .n => 275000
  | _ => 300000

/-- Home-rental income of the feasible point: the shares applied to `n`'s
basic salary for the seniors, and 1000 for `n` itself. -/
def HR0 (q : Person) (y : ℕ) : ℚ :=
  match q with
  | .m => f0 .m * BS .n y
  | .p => f0 .p * BS .n y
  | .n => 1000

/-- Interest-vehicle income of the feasible point: with `d = 1` the
interest balance never moves, so income is the rate times the initial
balance. -/
def Ii0 (q : Person) (y : ℕ) : ℚ := r q .i y * A0 q .i

/-- Expenses of the feasible point, from the expense constraints. -/
def E0 (q : Person) (y : ℕ) : ℚ :=
  match q with
  | .n => BS .n y + HR0 .m y + HR0 .p y
  | _ => SR q y + Ii0 q 0

/-- The part of taxable income `T` that does not involve the growth income:
`T = tbase + I_g`. -/
def tbase (q : Person) (y : ℕ) : ℚ :=
  SAL q y + SR q y + HR0 q y + Ii0 q y - D0 q y
    - (3/10) * (HR0 q y + SR q y) - (12/100 + 1/10) * BS q y
    - (f0 .m + f0 .p - 1/10) * BS q y

/-- The part of disposable income `K` that does not involve the tax
liability: `K = kbase - t`. -/
def kbase (q : Person) (y : ℕ) : ℚ :=
  SAL q y + SR q y + HR0 q y + Ii0 q y + DF0 q y - D0 q y - E0 q y

/-- Growth-vehicle balance of the feasible point, tabulated as exact
rationals.  The entry for year `y > 0` is the unique solution `A` of the
simultaneous constraints `A = Ag q (y-1) + F + I`, `I = r q g y * A`,
`F = K = kbase q y - t`, `t = Gmodel (tbase q y + I)` on the bracket of
`Gmodel` that is self-consistent; year 0 is the pinned initial balance.
(The feasibility lemma below checks all of these equations, so the table
needs no further justification.) -/
def Ag (q : Person) (y : ℕ) : ℚ :=
  match q with
  | .m =>
    if y = 0 then 1159500
    else if y = 1 then 30987500000/22539
    else if y = 2 then 838360175000000/508006521
    else if y = 3 then 2895899366040787000000/1463750177355081
    else if y = 4 then 9985613383654025322232100000/4217592674774013545241
    else if y = 5 then 34347627063394056073717242353500000/12152407046979526442729153001
    else if y = 6 then 117803718024728683287410173550536042400000/35015471721291975290548515020114361
    else if y = 7 then 402775285555829115488406185740556540849842900000/100892214614333567215150159786871735325321
    else if y = 8 then 693073975850724042819671658830790062372843390863450000/146967368507763577690263289307860958798482618317
    else if y = 9 then 1185443293987029901149785689009704743647176728053649517400000/214083985455783525059119657479106977879697265002152609
    else if y = 10 then 2017086365829301275242100436144094910020195239654811119629839575000/311851217681774377932543245297693115216863772891540656020293
    else 0
  | .p =>
    if y = 0 then 225000
    else if y = 1 then 15250000000/46011
    else if y = 2 then 1022462150000000/2117012121
    else if y = 3 then 66926602983265000000/97405844699331
    else if y = 4 then 4267935548785970256500000/4481740320460918641
    else if y = 5 then 265642665225071671882457500000/206209353884727327591051
    else if y = 6 then 16184220603150293638975531248500000/9487898581590189069791847561
    else if y = 7 then 967953061326100135275463963968091000000/436547701637546189290192698129171
    else if y = 8 then 7202045274416715277113491986845231407704600000/2556025645833278679904925074696429701219
    else if y = 9 then 52637470344856028282771242076758983629060676987400000/14965757642636325832645847850679243882880653491
    else if y = 10 then 379280751755690445881121611465127604357210118864249714200000/87625842950065882383140544646185683386971802567965699
    else 0
  | .n =>
    if y = 0 then 0
    else if y = 1 then 941128750000/1462439
    else if y = 2 then 2971562158304250000/2138727828721
    else if y = 3 then 7038868679147263388950000/3127758987106910519
    else if y = 4 then 14824667191998593226541812330000/4574156725345643112495841
    else if y = 5 then 29278587841552035003962761105157350000/6689425187257756967795305216199
    else if y = 6 then 55525908451687567082240444927487474773770000/9782876281428046842225598365072849361
    else if y = 7 then 102402704919387158303089892921689403280777420630000/14306859806135351395897561847418772746651479
    else if y = 8 then 185043054792698787864641125985331235403816823648403130000/20922909748024777160065034450577262596840242297281
    else if y = 9 then 329223898778066811141837560682536432819777552662541269921270000/30598479208991607085188348916867761334860447104993328359
    else if y = 10 then 578640716990685148556461376833722389066309852674070177154973042970000/44748409335918476874055763801635172018791977403779338132007601
    else 0

/-- Growth-vehicle income of the feasible point. -/
def Ig0 (q : Person) (y : ℕ) : ℚ := r q .g y * Ag q y

/-- Taxable income of the feasible point. -/
def Tv (q : Person) (y : ℕ) : ℚ := tbase q y + Ig0 q y

/-- Tax liability of the feasible point. -/
def tv (q : Person) (y : ℕ) : ℚ := Gmodel (Tv q y)

/-- Disposable income of the feasible point. -/
def Kv (q : Person) (y : ℕ) : ℚ := kbase q y - tv q y

/-- Bracket indicators of the feasible point: the indicator of the bracket
containing `Tv`. -/
def bv (q : Person) (y : ℕ) : Bracket → ℚ := fun k =>
  if Tv q y ≤ 500000 then (if k = .A then 1 else 0)
  else if Tv q y ≤ 1000000 then (if k = .B then 1 else 0)
  else (if k = .C then 1 else 0)

/-- Bracket tax contributions of the feasible point: the exact per-bracket
formula on the active bracket, 0 elsewhere. -/
def compv (q : Person) (y : ℕ) : Bracket → ℚ := fun k =>
  match k with
  | .A => 0
  | .B =>
    if 500000 < Tv q y ∧ Tv q y ≤ 1000000
    then (104/100) * ((2/10) * Tv q y - 87500) else 0
  | .C =>
    if 1000000 < Tv q y
    then (104/100) * ((3/10) * Tv q y - 187500) else 0

/-- The concrete feasible point. -/
def vstar : Assignment where
  f := f0
  DF := DF0
  D := D0
  HR := HR0
  I := fun q iv y => match iv with | .i => Ii0 q y | .g => Ig0 q y
  A := fun q iv y => match iv with | .i => A0 q .i | .g => Ag q y
  t := tv
  F := fun q iv y => match iv with | .i => 0 | .g => Kv q y
  T := Tv
  E := E0
  K := Kv
  b := bv
  tax_comp := compv

attribute [simp] Y VERY_LARGE_NUM VERY_SMALL_NUM max_HR_fraction BS_c DF_lim
  D_lim DD_lim A0 r d BS SAL SR f0 DF0 D0 HR0 Ii0 E0 tbase kbase
  Ag Ig0 Kv vstar

/-- The three persons are pairwise distinct (used by `simp` to resolve the
person-dependent conditionals of the witness point). -/
@[simp] lemma p_ne_m : Person.p ≠ Person.m := by decide

/-- Person `n` is not `m`. -/
@[simp] lemma n_ne_m : Person.n ≠ Person.m := by decide

/-- Person `m` is not `p`. -/
@[simp] lemma m_ne_p : Person.m ≠ Person.p := by decide

/-- Person `n` is not `p`. -/
@[simp] lemma n_ne_p : Person.n ≠ Person.p := by decide

/-- Person `m` is not `n`. -/
@[simp] lemma m_ne_n : Person.m ≠ Person.n := by decide

/-- Person `p` is not `n`. -/
@[simp] lemma p_ne_n : Person.p ≠ Person.n := by decide

/-- Evaluation rule for `round` on rationals via the floor characterisation,
used to compute the rounded salary and rental schedules. -/
lemma round_eq_int (x : ℚ) (n : ℤ) (h1 : (n : ℚ) ≤ x + 1/2) (h2 : x + 1/2 < (n : ℚ) + 1) :
    round x = n := by
  rw [round_eq, Int.floor_eq_iff]
  exact ⟨h1, h2⟩

/-- Concrete value of `SAL_c 0`. -/
@[simp] lemma SAL_c_0 : SAL_c 0 = 3000000 := by
  have h := round_eq_int ((3000000 : ℚ) * (11/10) ^ 0 / 100) 30000 (by norm_num) (by norm_num)
  simp only [SAL_c, h]
  norm_num

/-- Concrete value of `SAL_c 1`. -/
@[simp] lemma SAL_c_1 : SAL_c 1 = 3300000 := by
  have h := round_eq_int ((3000000 : ℚ) * (11/10) ^ 1 / 100) 33000 (by norm_num) (by norm_num)
  simp only [SAL_c, h]
  norm_num

/-- Concrete value of `SAL_c 2`. -/
@[simp] lemma SAL_c_2 : SAL_c 2 = 3630000 := by
  have h := round_eq_int ((3000000 : ℚ) * (11/10) ^ 2 / 100) 36300 (by norm_num) (by norm_num)
  simp only [SAL_c, h]
  norm_num

/-- Concrete value of `SAL_c 3`. -/
@[simp] lemma SAL_c_3 : SAL_c 3 = 3993000 := by
  have h := round_eq_int ((3000000 : ℚ) * (11/10) ^ 3 / 100) 39930 (by norm_num) (by norm_num)
  simp only [SAL_c, h]
  norm_num

/-- Concrete value of `SAL_c 4`. -/
@[simp] lemma SAL_c_4 : SAL_c 4 = 4392300 := by
  have h := round_eq_int ((3000000 : ℚ) * (11/10) ^ 4 / 100) 43923 (by norm_num) (by norm_num)
  simp only [SAL_c, h]
  norm_num

/-- Concrete value of `SAL_c 5`. -/
@[simp] lemma SAL_c_5 : SAL_c 5 = 4831500 := by
  have h := round_eq_int ((3000000 : ℚ) * (11/10) ^ 5 / 100) 48315 (by norm_num) (by norm_num)
  simp only [SAL_c, h]
  norm_num

/-- Concrete value of `SAL_c 6`. -/
@[simp] lemma SAL_c_6 : SAL_c 6 = 5314700 := by
  have h := round_eq_int ((3000000 : ℚ) * (11/10) ^ 6 / 100) 53147 (by norm_num) (by norm_num)
  simp only [SAL_c, h]
  norm_num

/-- Concrete value of `SAL_c 7`. -/
@[simp] lemma SAL_c_7 : SAL_c 7 = 5846200 := by
  have h := round_eq_int ((3000000 : ℚ) * (11/10) ^ 7 / 100) 58462 (by norm_num) (by norm_num)
  simp only [SAL_c, h]
  norm_num

/-- Concrete value of `SAL_c 8`. -/
@[simp] lemma SAL_c_8 : SAL_c 8 = 6430800 := by
  have h := round_eq_int ((3000000 : ℚ) * (11/10) ^ 8 / 100) 64308 (by norm_num) (by norm_num)
  simp only [SAL_c, h]
  norm_num

/-- Concrete value of `SAL_c 9`. -/
@[simp] lemma SAL_c_9 : SAL_c 9 = 7073800 := by
  have h := round_eq_int ((3000000 : ℚ) * (11/10) ^ 9 / 100) 70738 (by norm_num) (by norm_num)
  simp only [SAL_c, h]
  norm_num

/-- Concrete value of `SAL_c 10`. -/
@[simp] lemma SAL_c_10 : SAL_c 10 = 7781200 := by
  have h := round_eq_int ((3000000 : ℚ) * (11/10) ^ 10 / 100) 77812 (by norm_num) (by norm_num)
  simp only [SAL_c, h]
  norm_num

/-- Concrete value of `SR_c 0`. -/
@[simp] lemma SR_c_0 : SR_c 0 = 174000 := by
  have h := round_eq_int ((174000 : ℚ) * (11/10) ^ 0 / 100) 1740 (by norm_num) (by norm_num)
  simp only [SR_c, h]
  norm_num

/-- Concrete value of `SR_c 1`. -/
@[simp] lemma SR_c_1 : SR_c 1 = 191400 := by
  have h := round_eq_int ((174000 : ℚ) * (11/10) ^ 1 / 100) 1914 (by norm_num) (by norm_num)
  simp only [SR_c, h]
  norm_num

/-- Concrete value of `SR_c 2`. -/
@[simp] lemma SR_c_2 : SR_c 2 = 210500 := by
  have h := round_eq_int ((174000 : ℚ) * (11/10) ^ 2 / 100) 2105 (by norm_num) (by norm_num)
  simp only [SR_c, h]
  norm_num

/-- Concrete value of `SR_c 3`. -/
@[simp] lemma SR_c_3 : SR_c 3 = 231600 := by
  have h := round_eq_int ((174000 : ℚ) * (11/10) ^ 3 / 100) 2316 (by norm_num) (by norm_num)
  simp only [SR_c, h]
  norm_num

/-- Concrete value of `SR_c 4`. -/
@[simp] lemma SR_c_4 : SR_c 4 = 254800 := by
  have h := round_eq_int ((174000 : ℚ) * (11/10) ^ 4 / 100) 2548 (by norm_num) (by norm_num)
  simp only [SR_c, h]
  norm_num

/-- Concrete value of `SR_c 5`. -/
@[simp] lemma SR_c_5 : SR_c 5 = 280200 := by
  have h := round_eq_int ((174000 : ℚ) * (11/10) ^ 5 / 100) 2802 (by norm_num) (by norm_num)
  simp only [SR_c, h]
  norm_num

/-- Concrete value of `SR_c 6`. -/
@[simp] lemma SR_c_6 : SR_c 6 = 308300 := by
  have h := round_eq_int ((174000 : ℚ) * (11/10) ^ 6 / 100) 3083 (by norm_num) (by norm_num)
  simp only [SR_c, h]
  norm_num

/-- Concrete value of `SR_c 7`. -/
@[simp] lemma SR_c_7 : SR_c 7 = 339100 := by
  have h := round_eq_int ((174000 : ℚ) * (11/10) ^ 7 / 100) 3391 (by norm_num) (by norm_num)
  simp only [SR_c, h]
  norm_num

/-- Concrete value of `SR_c 8`. -/
@[simp] lemma SR_c_8 : SR_c 8 = 373000 := by
  have h := round_eq_int ((174000 : ℚ) * (11/10) ^ 8 / 100) 3730 (by norm_num) (by norm_num)
  simp only [SR_c, h]
  norm_num

/-- Concrete value of `SR_c 9`. -/
@[simp] lemma SR_c_9 : SR_c 9 = 410300 := by
  have h := round_eq_int ((174000 : ℚ) * (11/10) ^ 9 / 100) 4103 (by norm_num) (by norm_num)
  simp only [SR_c, h]
  norm_num

/-- Concrete value of `SR_c 10`. -/
@[simp] lemma SR_c_10 : SR_c 10 = 451300 := by
  have h := round_eq_int ((174000 : ℚ) * (11/10) ^ 10 / 100) 4513 (by norm_num) (by norm_num)
  simp only [SR_c, h]
  norm_num

/-- The growth-balance table of the feasible point is nonnegative. -/
lemma Ag_nonneg : ∀ q : Person, ∀ y < Y, (0:ℚ) ≤ Ag q y := by
  intro q y hy
  have h11 : y < 11 := hy
  cases q <;> interval_cases y <;> norm_num

/-- Cached value of `Tv .m 0`. -/
@[simp] lemma Tv_m_0 : Tv .m 0 = 16184059 / 50 := by
  norm_num [Tv]

/-- Cached value of `Tv .m 1`. -/
@[simp] lemma Tv_m_1 : Tv .m 1 = 8521075580 / 22539 := by
  norm_num [Tv]

/-- Cached value of `Tv .m 2`. -/
@[simp] lemma Tv_m_2 : Tv .m 2 = 224358516224990 / 508006521 := by
  norm_num [Tv]

/-- Cached value of `Tv .m 3`. -/
@[simp] lemma Tv_m_3 : Tv .m 3 = 752550227734947291250 / 1463750177355081 := by
  norm_num [Tv]

/-- Cached value of `Tv .m 4`. -/
@[simp] lemma Tv_m_4 : Tv .m 4 = 2516335991920417391241891125 / 4217592674774013545241 := by
  norm_num [Tv]

/-- Cached value of `Tv .m 5`. -/
@[simp] lemma Tv_m_5 : Tv .m 5 = 8389005066075069034048768351695625 / 12152407046979526442729153001 := by
  norm_num [Tv]

/-- Cached value of `Tv .m 6`. -/
@[simp] lemma Tv_m_6 : Tv .m 6 = 27899066310881688146610944558864592093875 / 35015471721291975290548515020114361 := by
  norm_num [Tv]

/-- Cached value of `Tv .m 7`. -/
@[simp] lemma Tv_m_7 : Tv .m 7 = 92551426489853938096539400307587859068678649500 / 100892214614333567215150159786871735325321 := by
  norm_num [Tv]

/-- Cached value of `Tv .m 8`. -/
@[simp] lemma Tv_m_8 : Tv .m 8 = 154789394364343990980422794444475847028453771654837750 / 146967368507763577690263289307860958798482618317 := by
  norm_num [Tv]

/-- Cached value of `Tv .m 9`. -/
@[simp] lemma Tv_m_9 : Tv .m 9 = 258015302003213220897110735042593516774662316893762230135500 / 214083985455783525059119657479106977879697265002152609 := by
  norm_num [Tv]

/-- Cached value of `Tv .m 10`. -/
@[simp] lemma Tv_m_10 : Tv .m 10 = 428812338808091621091278751407651651472915916285722385338448419625 / 311851217681774377932543245297693115216863772891540656020293 := by
  norm_num [Tv]

/-- Cached value of `Tv .p 0`. -/
@[simp] lemma Tv_p_0 : Tv .p 0 = 149185 / 2 := by
  norm_num [Tv]

/-- Cached value of `Tv .p 1`. -/
@[simp] lemma Tv_p_1 : Tv .p 1 = 4789031062 / 46011 := by
  norm_num [Tv]

/-- Cached value of `Tv .p 2`. -/
@[simp] lemma Tv_p_2 : Tv .p 2 = 294844065420782 / 2117012121 := by
  norm_num [Tv]

/-- Cached value of `Tv .p 3`. -/
@[simp] lemma Tv_p_3 : Tv .p 3 = 17627346506514886012 / 97405844699331 := by
  norm_num [Tv]

/-- Cached value of `Tv .p 4`. -/
@[simp] lemma Tv_p_4 : Tv .p 4 = 1031145526686133652397593 / 4481740320460918641 := by
  norm_num [Tv]

/-- Cached value of `Tv .p 5`. -/
@[simp] lemma Tv_p_5 : Tv .p 5 = 59310152269186410306005463547 / 206209353884727327591051 := by
  norm_num [Tv]

/-- Cached value of `Tv .p 6`. -/
@[simp] lemma Tv_p_6 : Tv .p 6 = 3365905390454238660597920981016761 / 9487898581590189069791847561 := by
  norm_num [Tv]

/-- Cached value of `Tv .p 7`. -/
@[simp] lemma Tv_p_7 : Tv .p 7 = 188925374936805037523093861871874058776 / 436547701637546189290192698129171 := by
  norm_num [Tv]

/-- Cached value of `Tv .p 8`. -/
@[simp] lemma Tv_p_8 : Tv .p 8 = 1333202471624990990446536343030263504169069750 / 2556025645833278679904925074696429701219 := by
  norm_num [Tv]

/-- Cached value of `Tv .p 9`. -/
@[simp] lemma Tv_p_9 : Tv .p 9 = 9314833072426851196604501655028802707046131218506500 / 14965757642636325832645847850679243882880653491 := by
  norm_num [Tv]

/-- Cached value of `Tv .p 10`. -/
@[simp] lemma Tv_p_10 : Tv .p 10 = 64549288993346465261860738936901139012708350894701587325750 / 87625842950065882383140544646185683386971802567965699 := by
  norm_num [Tv]

/-- Cached value of `Tv .n 0`. -/
@[simp] lemma Tv_n_0 : Tv .n 0 = 1981700 := by
  norm_num [Tv]

/-- Cached value of `Tv .n 1`. -/
@[simp] lemma Tv_n_1 : Tv .n 1 = 3315641868750 / 1462439 := by
  norm_num [Tv]

/-- Cached value of `Tv .n 2`. -/
@[simp] lemma Tv_n_2 : Tv .n 2 = 5528153640006226250 / 2138727828721 := by
  norm_num [Tv]

/-- Cached value of `Tv .n 3`. -/
@[simp] lemma Tv_n_3 : Tv .n 3 = 9189068116401057785061750 / 3127758987106910519 := by
  norm_num [Tv]

/-- Cached value of `Tv .n 4`. -/
@[simp] lemma Tv_n_4 : Tv .n 4 = 15233672408190141670516545488450 / 4574156725345643112495841 := by
  norm_num [Tv]

/-- Cached value of `Tv .n 5`. -/
@[simp] lemma Tv_n_5 : Tv .n 5 = 25194949887188221979909670481217892750 / 6689425187257756967795305216199 := by
  norm_num [Tv]

/-- Cached value of `Tv .n 6`. -/
@[simp] lemma Tv_n_6 : Tv .n 6 = 41583684129512407190579502480712261291398050 / 9782876281428046842225598365072849361 := by
  norm_num [Tv]

/-- Cached value of `Tv .n 7`. -/
@[simp] lemma Tv_n_7 : Tv .n 7 = 68505126505642255287640543224833361475036616772950 / 14306859806135351395897561847418772746651479 := by
  norm_num [Tv]

/-- Cached value of `Tv .n 8`. -/
@[simp] lemma Tv_n_8 : Tv .n 8 = 112667041497934704994066517162590028012509684567395885450 / 20922909748024777160065034450577262596840242297281 := by
  norm_num [Tv]

/-- Cached value of `Tv .n 9`. -/
@[simp] lemma Tv_n_9 : Tv .n 9 = 185019534367116813267417493651674320170875618670868629657110550 / 30598479208991607085188348916867761334860447104993328359 := by
  norm_num [Tv]

/-- Cached value of `Tv .n 10`. -/
@[simp] lemma Tv_n_10 : Tv .n 10 = 303429023945586472314888766333443619875030830884910194616303919651050 / 44748409335918476874055763801635172018791977403779338132007601 := by
  norm_num [Tv]

/-- Bracket classification of the feasible point's taxable income: every
`Tv q y` is nonnegative, avoids the open slack windows of width
`VERY_SMALL_NUM` above the two thresholds, and stays below 10^7 (far under
the big-M constant). -/
lemma Tv_bracket : ∀ q : Person, ∀ y < Y,
    (0 ≤ Tv q y ∧ Tv q y ≤ 500000) ∨
    (500000 + VERY_SMALL_NUM ≤ Tv q y ∧ Tv q y ≤ 1000000) ∨
    (1000000 + VERY_SMALL_NUM ≤ Tv q y ∧ Tv q y ≤ 10000000) := by
  intro q y hy
  have h11 : y < 11 := hy
  cases q <;> interval_cases y <;>
    first
      | (left; constructor <;> (norm_num; done))
      | (right; left; constructor <;> (norm_num; done))
      | (right; right; constructor <;> (norm_num; done))

/-- The feasible point's disposable income is nonnegative everywhere. -/
lemma Kv_nonneg : ∀ q : Person, ∀ y < Y, (0:ℚ) ≤ Kv q y := by
  intro q y hy
  have h11 : y < 11 := hy
  cases q <;> interval_cases y <;> norm_num [tv, Tv, Gmodel]

/-- The growth-balance table satisfies the wealth recurrence of the model:
each entry is the previous entry plus the new investment (`Kv`, since
`d = 1`) plus the same-period growth income. -/
lemma wealth_g_eq : ∀ q : Person, ∀ y < Y, 0 < y →
    Ag q y = Ag q (y - 1) + Kv q y + Ig0 q y := by
  intro q y hy h0
  have h11 : y < 11 := hy
  cases q <;> interval_cases y <;> norm_num [tv, Tv, Gmodel]

/-- Case description of the tax block of the feasible point: in each bracket
the indicators, the bracket contributions and the liability take the exact
values the constraints require. -/
lemma tax_block (q : Person) (y : ℕ) (hy : y < Y) :
    (0 ≤ Tv q y ∧ Tv q y ≤ 500000 ∧ bv q y .A = 1 ∧ bv q y .B = 0 ∧ bv q y .C = 0 ∧
      compv q y .B = 0 ∧ compv q y .C = 0 ∧ tv q y = 0) ∨
    (500000 + VERY_SMALL_NUM ≤ Tv q y ∧ Tv q y ≤ 1000000 ∧ bv q y .A = 0 ∧
      bv q y .B = 1 ∧ bv q y .C = 0 ∧
      compv q y .B = (104/100) * ((2/10) * Tv q y - 87500) ∧ compv q y .C = 0 ∧
      tv q y = (104/100) * ((2/10) * Tv q y - 87500)) ∨
    (1000000 + VERY_SMALL_NUM ≤ Tv q y ∧ Tv q y ≤ 10000000 ∧ bv q y .A = 0 ∧
      bv q y .B = 0 ∧ bv q y .C = 1 ∧ compv q y .B = 0 ∧
      compv q y .C = (104/100) * ((3/10) * Tv q y - 187500) ∧
      tv q y = (104/100) * ((3/10) * Tv q y - 187500)) := by
  rcases Tv_bracket q y hy with ⟨h1, h2⟩ | ⟨h1, h2⟩ | ⟨h1, h2⟩
  · have hn1 : ¬ (500000 : ℚ) < Tv q y := not_lt.mpr h2
    have hn2 : ¬ (1000000 : ℚ) < Tv q y := not_lt.mpr (h2.trans (by norm_num))
    exact Or.inl ⟨h1, h2, by simp [bv, h2], by simp [bv, h2], by simp [bv, h2],
      by simp [compv, hn1], by simp [compv, hn2], by simp [tv, Gmodel, h2]⟩
  · have h1g : (500000 : ℚ) < Tv q y := by
      simp only [VERY_SMALL_NUM] at h1
      linarith
    have hn1 : ¬ Tv q y ≤ 500000 := not_le.mpr h1g
    have hn2 : ¬ (1000000 : ℚ) < Tv q y := not_lt.mpr h2
    exact Or.inr (Or.inl ⟨h1, h2, by simp [bv, hn1, h2], by simp [bv, hn1, h2],
      by simp [bv, hn1, h2], by simp [compv, h1g, h2], by simp [compv, hn2],
      by simp [tv, Gmodel, hn1, h2]⟩)
  · have h1g : (1000000 : ℚ) < Tv q y := by
      simp only [VERY_SMALL_NUM] at h1
      linarith
    have hn0 : ¬ Tv q y ≤ 500000 := not_le.mpr (by linarith)
    have hn1 : ¬ Tv q y ≤ 1000000 := not_le.mpr h1g
    exact Or.inr (Or.inr ⟨h1, h2, by simp [bv, hn0, hn1], by simp [bv, hn0, hn1],
      by simp [bv, hn0, hn1], by simp [compv, hn1], by simp [compv, h1g],
      by simp [tv, Gmodel, hn0, hn1]⟩)

set_option maxHeartbeats 12000000 in
/-- The concrete point `vstar` satisfies every bound and every constraint of
the model: it is a feasible point of the LP. -/
lemma feasible_vstar : Feasible vstar where
  f_bnd := by
    intro q hq
    cases q <;> first | exact absurd rfl hq | constructor <;> norm_num
  DF_bnd := by
    intro q y hy
    simp only [vstar, DF0, DF_lim]
    split <;> norm_num
  D_bnd := by
    intro q y hy
    cases q <;> constructor <;> norm_num
  HR_bnd := by
    intro q y hy
    have h11 : y < 11 := hy
    cases q <;> interval_cases y <;> norm_num
  I_bnd := by
    intro q iv y hy
    have h11 : y < 11 := hy
    cases q <;> cases iv <;> interval_cases y <;> norm_num
  A_bnd := by
    intro q iv y hy
    cases iv
    · cases q <;> norm_num
    · simp only [vstar]
      exact Ag_nonneg q y hy
  t_bnd := by
    intro q y hy
    rcases tax_block q y hy with ⟨hT0, hT1, hA, hB, hC, hcB, hcC, ht⟩ |
      ⟨hT1, hT2, hA, hB, hC, hcB, hcC, ht⟩ | ⟨hT1, hT2, hA, hB, hC, hcB, hcC, ht⟩ <;>
      simp only [vstar] <;> rw [ht] <;>
      (try simp only [VERY_SMALL_NUM] at *) <;> linarith
  T_bnd := by
    intro q y hy
    rcases tax_block q y hy with ⟨hT0, hT1, hA, hB, hC, hcB, hcC, ht⟩ |
      ⟨hT1, hT2, hA, hB, hC, hcB, hcC, ht⟩ | ⟨hT1, hT2, hA, hB, hC, hcB, hcC, ht⟩ <;>
      simp only [vstar] <;> (try simp only [VERY_SMALL_NUM] at *) <;> linarith
  E_bnd := by
    intro q y hy
    have h11 : y < 11 := hy
    cases q <;> interval_cases y <;> norm_num
  K_bnd := by
    intro q y hy
    simp only [vstar]
    exact Kv_nonneg q y hy
  b_bin := by
    intro q y hy k
    rcases tax_block q y hy with ⟨hT0, hT1, hA, hB, hC, hcB, hcC, ht⟩ |
      ⟨hT1, hT2, hA, hB, hC, hcB, hcC, ht⟩ | ⟨hT1, hT2, hA, hB, hC, hcB, hcC, ht⟩ <;>
      cases k <;> simp only [vstar] <;>
      first
        | (rw [hA]; norm_num)
        | (rw [hB]; norm_num)
        | (rw [hC]; norm_num)
  comp_bnd := by
    intro q y hy k
    rcases tax_block q y hy with ⟨hT0, hT1, hA, hB, hC, hcB, hcC, ht⟩ |
      ⟨hT1, hT2, hA, hB, hC, hcB, hcC, ht⟩ | ⟨hT1, hT2, hA, hB, hC, hcB, hcC, ht⟩ <;>
      cases k <;> simp only [vstar] <;>
      first
        | (rw [hcB]; first | done | (norm_num; done) | ((try simp only [VERY_SMALL_NUM] at *); linarith))
        | (rw [hcC]; first | done | (norm_num; done) | ((try simp only [VERY_SMALL_NUM] at *); linarith))
        | (simp [compv]; done)
  init := by
    intro q iv
    cases q <;> cases iv <;> norm_num
  income := by
    intro q iv y hy
    cases iv <;> rfl
  wealth_i := by
    intro q y hy h0
    simp only [vstar]
    rw [add_zero]
  wealth_g := by
    intro q y hy h0
    simp only [vstar]
    exact wealth_g_eq q y hy h0
  ded_lb := by
    intro q y hy
    cases q <;> simp only [vstar, D0, DF0] <;> split_ifs <;> norm_num
  ded_ub := by
    intro q y hy
    cases q <;> simp only [vstar, D0, DF0, DD_lim, D_lim, DF_lim] <;>
      split_ifs <;> norm_num
  HR_m := by
    intro y hy
    rfl
  HR_p := by
    intro y hy
    rfl
  f_sum := by
    intro y hy
    norm_num
  taxable := by
    intro q y hy
    simp only [vstar, Tv, tbase]
    ring
  b_sum := by
    intro q y hy
    rcases tax_block q y hy with ⟨hT0, hT1, hA, hB, hC, hcB, hcC, ht⟩ |
      ⟨hT1, hT2, hA, hB, hC, hcB, hcC, ht⟩ | ⟨hT1, hT2, hA, hB, hC, hcB, hcC, ht⟩ <;>
      simp only [vstar] <;> rw [hA, hB, hC] <;> norm_num
  brA_ub := by
    intro q y hy
    rcases tax_block q y hy with ⟨hT0, hT1, hA, hB, hC, hcB, hcC, ht⟩ |
      ⟨hT1, hT2, hA, hB, hC, hcB, hcC, ht⟩ | ⟨hT1, hT2, hA, hB, hC, hcB, hcC, ht⟩ <;>
      simp only [vstar] <;> rw [hA] <;>
      (try simp only [VERY_LARGE_NUM, VERY_SMALL_NUM] at *) <;> linarith
  brB_lb := by
    intro q y hy
    rcases tax_block q y hy with ⟨hT0, hT1, hA, hB, hC, hcB, hcC, ht⟩ |
      ⟨hT1, hT2, hA, hB, hC, hcB, hcC, ht⟩ | ⟨hT1, hT2, hA, hB, hC, hcB, hcC, ht⟩ <;>
      simp only [vstar] <;> rw [hB] <;>
      (try simp only [VERY_LARGE_NUM, VERY_SMALL_NUM] at *) <;> linarith
  brB_ub := by
    intro q y hy
    rcases tax_block q y hy with ⟨hT0, hT1, hA, hB, hC, hcB, hcC, ht⟩ |
      ⟨hT1, hT2, hA, hB, hC, hcB, hcC, ht⟩ | ⟨hT1, hT2, hA, hB, hC, hcB, hcC, ht⟩ <;>
      simp only [vstar] <;> rw [hB] <;>
      (try simp only [VERY_LARGE_NUM, VERY_SMALL_NUM] at *) <;> linarith
  brC_lb := by
    intro q y hy
    rcases tax_block q y hy with ⟨hT0, hT1, hA, hB, hC, hcB, hcC, ht⟩ |
      ⟨hT1, hT2, hA, hB, hC, hcB, hcC, ht⟩ | ⟨hT1, hT2, hA, hB, hC, hcB, hcC, ht⟩ <;>
      simp only [vstar] <;> rw [hC] <;>
      (try simp only [VERY_LARGE_NUM, VERY_SMALL_NUM] at *) <;> linarith
  compA := by
    intro q y hy
    simp [vstar, compv]
  compB_ub1 := by
    intro q y hy
    rcases tax_block q y hy with ⟨hT0, hT1, hA, hB, hC, hcB, hcC, ht⟩ |
      ⟨hT1, hT2, hA, hB, hC, hcB, hcC, ht⟩ | ⟨hT1, hT2, hA, hB, hC, hcB, hcC, ht⟩ <;>
      simp only [vstar] <;> rw [hcB, hB] <;>
      (try simp only [VERY_LARGE_NUM, VERY_SMALL_NUM] at *) <;> linarith
  compB_ub2 := by
    intro q y hy
    rcases tax_block q y hy with ⟨hT0, hT1, hA, hB, hC, hcB, hcC, ht⟩ |
      ⟨hT1, hT2, hA, hB, hC, hcB, hcC, ht⟩ | ⟨hT1, hT2, hA, hB, hC, hcB, hcC, ht⟩ <;>
      simp only [vstar] <;> rw [hcB, hB] <;>
      (try simp only [VERY_LARGE_NUM, VERY_SMALL_NUM] at *) <;> linarith
  compB_lb := by
    intro q y hy
    rcases tax_block q y hy with ⟨hT0, hT1, hA, hB, hC, hcB, hcC, ht⟩ |
      ⟨hT1, hT2, hA, hB, hC, hcB, hcC, ht⟩ | ⟨hT1, hT2, hA, hB, hC, hcB, hcC, ht⟩ <;>
      simp only [vstar] <;> rw [hcB, hB] <;>
      (try simp only [VERY_LARGE_NUM, VERY_SMALL_NUM] at *) <;> linarith
  compC_ub1 := by
    intro q y hy
    rcases tax_block q y hy with ⟨hT0, hT1, hA, hB, hC, hcB, hcC, ht⟩ |
      ⟨hT1, hT2, hA, hB, hC, hcB, hcC, ht⟩ | ⟨hT1, hT2, hA, hB, hC, hcB, hcC, ht⟩ <;>
      simp only [vstar] <;> rw [hcC, hC] <;>
      (try simp only [VERY_LARGE_NUM, VERY_SMALL_NUM] at *) <;> linarith
  compC_ub2 := by
    intro q y hy
    rcases tax_block q y hy with ⟨hT0, hT1, hA, hB, hC, hcB, hcC, ht⟩ |
      ⟨hT1, hT2, hA, hB, hC, hcB, hcC, ht⟩ | ⟨hT1, hT2, hA, hB, hC, hcB, hcC, ht⟩ <;>
      simp only [vstar] <;> rw [hcC, hC] <;>
      (try simp only [VERY_LARGE_NUM, VERY_SMALL_NUM] at *) <;> linarith
  compC_lb := by
    intro q y hy
    rcases tax_block q y hy with ⟨hT0, hT1, hA, hB, hC, hcB, hcC, ht⟩ |
      ⟨hT1, hT2, hA, hB, hC, hcB, hcC, ht⟩ | ⟨hT1, hT2, hA, hB, hC, hcB, hcC, ht⟩ <;>
      simp only [vstar] <;> rw [hcC, hC] <;>
      (try simp only [VERY_LARGE_NUM, VERY_SMALL_NUM] at *) <;> linarith
  tax_tot := by
    intro q y hy
    rcases tax_block q y hy with ⟨hT0, hT1, hA, hB, hC, hcB, hcC, ht⟩ |
      ⟨hT1, hT2, hA, hB, hC, hcB, hcC, ht⟩ | ⟨hT1, hT2, hA, hB, hC, hcB, hcC, ht⟩ <;>
      simp only [vstar] <;> rw [ht, hcB, hcC] <;> simp [compv]
  exp_sen := by
    intro q hq y hy
    cases q
    · rfl
    · rfl
    · exact absurd rfl hq
  exp_n := by
    intro y hy
    rfl
  disp := by
    intro q y hy
    simp only [vstar, Kv, kbase]
  inv_g := by
    intro q y hy
    simp only [vstar, d]
    rw [one_mul]
  inv_i := by
    intro q y hy
    simp only [vstar, d]
    norm_num

/-- From binarity and the sum-to-one constraint, exactly one bracket
indicator equals 1 at every feasible point. -/
lemma bracket_cases (v : Assignment) (hv : Feasible v) (q : Person) (y : ℕ)
    (hy : y < Y) :
    (v.b q y .A = 1 ∧ v.b q y .B = 0 ∧ v.b q y .C = 0) ∨
    (v.b q y .A = 0 ∧ v.b q y .B = 1 ∧ v.b q y .C = 0) ∨
    (v.b q y .A = 0 ∧ v.b q y .B = 0 ∧ v.b q y .C = 1) := by
  have hsum := hv.b_sum q y hy
  rcases hv.b_bin q y hy Bracket.A with hA | hA <;>
    rcases hv.b_bin q y hy Bracket.B with hB | hB <;>
      rcases hv.b_bin q y hy Bracket.C with hC | hC <;>
        rw [hA, hB, hC] at hsum <;> norm_num at hsum
  · exact Or.inr (Or.inr ⟨hA, hB, hC⟩)
  · exact Or.inr (Or.inl ⟨hA, hB, hC⟩)
  · exact Or.inl ⟨hA, hB, hC⟩

/-- The middle-bracket contribution vanishes when its indicator is 0: the
indicator-gated big-M upper bound meets the nonnegativity lower bound. -/
lemma compB_zero (v : Assignment) (hv : Feasible v) (q : Person) (y : ℕ)
    (hy : y < Y) (hB : v.b q y .B = 0) : v.tax_comp q y .B = 0 := by
  have h1 := hv.compB_ub2 q y hy
  have h2 := hv.comp_bnd q y hy Bracket.B
  rw [hB] at h1
  simp only [VERY_LARGE_NUM] at h1
  linarith

/-- The top-bracket contribution vanishes when its indicator is 0. -/
lemma compC_zero (v : Assignment) (hv : Feasible v) (q : Person) (y : ℕ)
    (hy : y < Y) (hC : v.b q y .C = 0) : v.tax_comp q y .C = 0 := by
  have h1 := hv.compC_ub2 q y hy
  have h2 := hv.comp_bnd q y hy Bracket.C
  rw [hC] at h1
  simp only [VERY_LARGE_NUM] at h1
  linarith

/-- C1, counterexample to the claim as stated: at the feasible point `vstar`
the solved tax of person `n` in year 0 differs from the claimed bracket
formula `Gclaim` (which has no 4% cess and assumes zero cumulative tax at
the 500000 threshold): the code charges `1.04*(0.3*T - 187500)`, the claim
`100000 + 0.3*(T - 1000000)`. -/
theorem C1_claim_counterexample :
    Feasible vstar ∧ vstar.t Person.n 0 ≠ Gclaim (vstar.T Person.n 0) := by
  refine ⟨feasible_vstar, ?_⟩
  norm_num [Gclaim, tv, Gmodel]

/-- C1, amended: for every feasible point of the built model, for every
person and period, the tax-liability variable `t` equals `Gmodel` applied to
that person's taxable-income variable `T`, where `Gmodel` is the bracket
function the constraints actually encode: 0 for `T ≤ 500000`,
`1.04*(0.2*T - 87500)` for `500000 < T ≤ 1000000`, and
`1.04*(0.3*T - 187500)` for `T > 1000000` (thresholds 500000 and 1000000 as
claimed, but each formula carries the 4% cess factor and the cumulative tax
of the implicit 5% slab below 500000). -/
theorem C1_tax_equals_Gmodel (v : Assignment) (hv : Feasible v) (q : Person)
    (y : ℕ) (hy : y < Y) : v.t q y = Gmodel (v.T q y) := by
  have htot := hv.tax_tot q y hy
  have hA0 : v.tax_comp q y Bracket.A = 0 :=
    le_antisymm (hv.compA q y hy) (hv.comp_bnd q y hy Bracket.A)
  rcases bracket_cases v hv q y hy with ⟨hA, hB, hC⟩ | ⟨hA, hB, hC⟩ | ⟨hA, hB, hC⟩
  · have hT : v.T q y ≤ 500000 := by
      have h := hv.brA_ub q y hy
      rw [hA] at h
      simp only [VERY_LARGE_NUM] at h
      linarith
    rw [htot, hA0, compB_zero v hv q y hy hB, compC_zero v hv q y hy hC]
    simp only [Gmodel]
    rw [if_pos hT]
    norm_num
  · have hTlb : (500000 : ℚ) < v.T q y := by
      have h := hv.brB_lb q y hy
      rw [hB] at h
      simp only [VERY_SMALL_NUM] at h
      linarith
    have hTub : v.T q y ≤ 1000000 := by
      have h := hv.brB_ub q y hy
      rw [hB] at h
      simp only [VERY_LARGE_NUM] at h
      linarith
    have hBval : v.tax_comp q y Bracket.B = (104/100) * ((2/10) * v.T q y - 87500) := by
      have h1 := hv.compB_ub1 q y hy
      have h2 := hv.compB_lb q y hy
      rw [hB] at h1 h2
      simp only [VERY_LARGE_NUM] at h2
      linarith
    rw [htot, hA0, hBval, compC_zero v hv q y hy hC]
    simp only [Gmodel]
    rw [if_neg (not_le.mpr hTlb), if_pos hTub]
    ring
  · have hTlb : (1000000 : ℚ) < v.T q y := by
      have h := hv.brC_lb q y hy
      rw [hC] at h
      simp only [VERY_SMALL_NUM] at h
      linarith
    have hT5 : (500000 : ℚ) < v.T q y := by linarith
    have hCval : v.tax_comp q y Bracket.C = (104/100) * ((3/10) * v.T q y - 187500) := by
      have h1 := hv.compC_ub1 q y hy
      have h2 := hv.compC_lb q y hy
      rw [hC] at h1 h2
      simp only [VERY_LARGE_NUM] at h2
      linarith
    rw [htot, hA0, compB_zero v hv q y hy hB, hCval]
    simp only [Gmodel]
    rw [if_neg (not_le.mpr hT5), if_neg (not_le.mpr hTlb)]
    ring

/-- Witness for C1 (amended): the concrete feasible point `vstar`, person
`n`, year 0 (whose taxable income lies in the top bracket). -/
theorem C1_tax_equals_Gmodel_witness :
    Feasible vstar ∧ 0 < Y ∧ vstar.t Person.n 0 = Gmodel (vstar.T Person.n 0) :=
  ⟨feasible_vstar, by decide,
    C1_tax_equals_Gmodel vstar feasible_vstar Person.n 0 (by decide)⟩

/-- C2 (code bug): the income constraint the source adds is the same-period
`I[y] = r[y] * A[y]`, not the lagged `I[y] = r[y-1] * A[y-1]` that the
source docstring (recurrences 1-2) and the claim state.  At the feasible
point `vstar` the two sides differ for person `m`, growth vehicle, year 1
(the rates are constant in `y`, so the difference is exactly the balance
lag). -/
theorem C2_income_same_period :
    Feasible vstar ∧
      vstar.I Person.m Investment.g 1 =
        r Person.m Investment.g 1 * vstar.A Person.m Investment.g 1 ∧
      vstar.I Person.m Investment.g 1 ≠
        r Person.m Investment.g 0 * vstar.A Person.m Investment.g 0 := by
  refine ⟨feasible_vstar, rfl, ?_⟩
  norm_num

/-- C3: at every feasible point the period-0 balances of both vehicles are
pinned to the supplied initial-wealth constants as hard equalities, and for
every later period the balance updates hold exactly: the interest vehicle
adds only the new investment, the growth vehicle also reinvests its own
income. -/
theorem C3_balance_recurrences (v : Assignment) (hv : Feasible v) (q : Person)
    (y : ℕ) (hy : y < Y) (h0 : 0 < y) :
    v.A q .i 0 = A0 q .i ∧ v.A q .g 0 = A0 q .g ∧
      v.A q .i y = v.A q .i (y - 1) + v.F q .i y ∧
      v.A q .g y = v.A q .g (y - 1) + v.F q .g y + v.I q .g y :=
  ⟨hv.init q .i, hv.init q .g, hv.wealth_i q y hy h0, hv.wealth_g q y hy h0⟩

/-- Witness for C3: the concrete feasible point, person `m`, year 1. -/
theorem C3_balance_recurrences_witness :
    Feasible vstar ∧ 1 < Y ∧ 0 < 1 ∧
      (vstar.A Person.m Investment.i 0 = A0 Person.m Investment.i ∧
        vstar.A Person.m Investment.g 0 = A0 Person.m Investment.g ∧
        vstar.A Person.m Investment.i 1 =
          vstar.A Person.m Investment.i (1 - 1) + vstar.F Person.m Investment.i 1 ∧
        vstar.A Person.m Investment.g 1 =
          vstar.A Person.m Investment.g (1 - 1) + vstar.F Person.m Investment.g 1
            + vstar.I Person.m Investment.g 1) :=
  ⟨feasible_vstar, by decide, by decide,
    C3_balance_recurrences vstar feasible_vstar Person.m 1 (by decide) (by decide)⟩

/-- C4: at every feasible point, for every person and period, the three
bracket indicators sum to 1 and exactly one of them is 1; the lowest
bracket's contribution variable is 0; each higher bracket's contribution is
0 whenever its own indicator is 0; and the liability `t` is the sum of the
three contributions. -/
theorem C4_bracket_structure (v : Assignment) (hv : Feasible v) (q : Person)
    (y : ℕ) (hy : y < Y) :
    v.b q y .A + v.b q y .B + v.b q y .C = 1 ∧
    ((v.b q y .A = 1 ∧ v.b q y .B = 0 ∧ v.b q y .C = 0) ∨
      (v.b q y .A = 0 ∧ v.b q y .B = 1 ∧ v.b q y .C = 0) ∨
      (v.b q y .A = 0 ∧ v.b q y .B = 0 ∧ v.b q y .C = 1)) ∧
    v.tax_comp q y .A = 0 ∧
    (v.b q y .B = 0 → v.tax_comp q y .B = 0) ∧
    (v.b q y .C = 0 → v.tax_comp q y .C = 0) ∧
    v.t q y = v.tax_comp q y .A + v.tax_comp q y .B + v.tax_comp q y .C :=
  ⟨hv.b_sum q y hy, bracket_cases v hv q y hy,
    le_antisymm (hv.compA q y hy) (hv.comp_bnd q y hy Bracket.A),
    fun hB => compB_zero v hv q y hy hB,
    fun hC => compC_zero v hv q y hy hC,
    hv.tax_tot q y hy⟩

/-- Witness for C4: the concrete feasible point, person `n`, year 0. -/
theorem C4_bracket_structure_witness :
    Feasible vstar ∧ 0 < Y ∧
      vstar.b Person.n 0 .A + vstar.b Person.n 0 .B + vstar.b Person.n 0 .C = 1 ∧
      vstar.tax_comp Person.n 0 .A = 0 ∧
      vstar.t Person.n 0 = vstar.tax_comp Person.n 0 .A + vstar.tax_comp Person.n 0 .B
        + vstar.tax_comp Person.n 0 .C :=
  ⟨feasible_vstar, by decide,
    (C4_bracket_structure vstar feasible_vstar Person.n 0 (by decide)).1,
    (C4_bracket_structure vstar feasible_vstar Person.n 0 (by decide)).2.2.1,
    (C4_bracket_structure vstar feasible_vstar Person.n 0 (by decide)).2.2.2.2.2⟩

/-- C5: at every feasible point taxable income is salary + shop rental +
home rental + interest income + growth income − total deductions − 30% of
(home + shop rental) − the fixed statutory exclusions on basic salary −
the redirected home-rental fraction of basic salary.  The fixed statutory
exclusions net to 12% of `BS` (the source's 22% PF/NPS exclusion less its
flat 10% add-back), the redirected fraction is `f_m + f_p`, and `BS`
vanishes for the two seniors, so both terms touch only the salaried person. -/
theorem C5_taxable_income (v : Assignment) (hv : Feasible v) (q : Person)
    (y : ℕ) (hy : y < Y) :
    v.T q y = SAL q y + SR q y + v.HR q y + v.I q .i y + v.I q .g y
        - v.D q y - (3/10) * (v.HR q y + SR q y)
        - (12/100) * BS q y - (v.f .m + v.f .p) * BS q y ∧
      BS .m y = 0 ∧ BS .p y = 0 := by
  refine ⟨?_, rfl, rfl⟩
  rw [hv.taxable q y hy]
  ring

/-- Witness for C5: the concrete feasible point, person `n`, year 0. -/
theorem C5_taxable_income_witness :
    Feasible vstar ∧ 0 < Y ∧
      (vstar.T Person.n 0 = SAL Person.n 0 + SR Person.n 0 + vstar.HR Person.n 0
          + vstar.I Person.n .i 0 + vstar.I Person.n .g 0
          - vstar.D Person.n 0 - (3/10) * (vstar.HR Person.n 0 + SR Person.n 0)
          - (12/100) * BS Person.n 0 - (vstar.f .m + vstar.f .p) * BS Person.n 0 ∧
        BS .m 0 = 0 ∧ BS .p 0 = 0) :=
  ⟨feasible_vstar, by decide,
    C5_taxable_income vstar feasible_vstar Person.n 0 (by decide)⟩

/-- C6: at every feasible point disposable income `K` is salary + shop
rental + home rental + interest-vehicle income + fixed deduction − total
deduction − expense − tax, and the two new-investment flows are
`F_g = d * K` and `F_i = (1 - d) * K` for the fixed allocation constant `d`,
so they sum exactly to `K`. -/
theorem C6_disposable_split (v : Assignment) (hv : Feasible v) (q : Person)
    (y : ℕ) (hy : y < Y) :
    v.K q y = SAL q y + SR q y + v.HR q y + v.I q .i y + v.DF q y
        - v.D q y - v.E q y - v.t q y ∧
      v.F q .g y = d q y * v.K q y ∧
      v.F q .i y = (1 - d q y) * v.K q y ∧
      v.F q .g y + v.F q .i y = v.K q y := by
  refine ⟨hv.disp q y hy, hv.inv_g q y hy, hv.inv_i q y hy, ?_⟩
  rw [hv.inv_g q y hy, hv.inv_i q y hy]
  ring

/-- Witness for C6: the concrete feasible point, person `m`, year 0. -/
theorem C6_disposable_split_witness :
    Feasible vstar ∧ 0 < Y ∧
      (vstar.K Person.m 0 = SAL Person.m 0 + SR Person.m 0 + vstar.HR Person.m 0
          + vstar.I Person.m .i 0 + vstar.DF Person.m 0
          - vstar.D Person.m 0 - vstar.E Person.m 0 - vstar.t Person.m 0 ∧
        vstar.F Person.m .g 0 = d Person.m 0 * vstar.K Person.m 0 ∧
        vstar.F Person.m .i 0 = (1 - d Person.m 0) * vstar.K Person.m 0 ∧
        vstar.F Person.m .g 0 + vstar.F Person.m .i 0 = vstar.K Person.m 0) :=
  ⟨feasible_vstar, by decide,
    C6_disposable_split vstar feasible_vstar Person.m 0 (by decide)⟩

/-- C7 (code bug): the model declares `DF` with `DF_lim` passed as the
LOWER bound of `LpVariable.dict` (third positional argument) and no upper
bound, so the built model admits feasible points whose fixed deduction
exceeds the 50000 cap the claim (and the docstring) state: `vstar` is
feasible with `DF` of person `m` in year 0 equal to 70000. -/
theorem C7_fixed_deduction_bound_flipped :
    Feasible vstar ∧ vstar.DF Person.m 0 = 70000 ∧
      ¬ vstar.DF Person.m 0 ≤ DF_lim Person.m := by
  refine ⟨feasible_vstar, ?_, ?_⟩ <;> norm_num

/-- C8: at every feasible point each senior's home-rental share is a single
per-person scalar in [0, 1) (strictness follows from the sum cap), the two
shares sum to at most 1/2, and each senior's home-rental income equals the
share times `n`'s basic salary in that period. -/
theorem C8_home_rental_shares (v : Assignment) (hv : Feasible v) (y : ℕ)
    (hy : y < Y) :
    0 ≤ v.f .m ∧ v.f .m < 1 ∧ 0 ≤ v.f .p ∧ v.f .p < 1 ∧
      v.f .m + v.f .p ≤ 1/2 ∧
      v.HR .m y = v.f .m * BS .n y ∧ v.HR .p y = v.f .p * BS .n y := by
  have hm := hv.f_bnd Person.m (by simp)
  have hp := hv.f_bnd Person.p (by simp)
  have hs := hv.f_sum y hy
  simp only [max_HR_fraction] at hs
  exact ⟨hm.1, by linarith [hp.1], hp.1, by linarith [hm.1], hs,
    hv.HR_m y hy, hv.HR_p y hy⟩

/-- Witness for C8: the concrete feasible point, year 0. -/
theorem C8_home_rental_shares_witness :
    Feasible vstar ∧ 0 < Y ∧
      (0 ≤ vstar.f .m ∧ vstar.f .m < 1 ∧ 0 ≤ vstar.f .p ∧ vstar.f .p < 1 ∧
        vstar.f .m + vstar.f .p ≤ 1/2 ∧
        vstar.HR .m 0 = vstar.f .m * BS .n 0 ∧ vstar.HR .p 0 = vstar.f .p * BS .n 0) :=
  ⟨feasible_vstar, by decide, C8_home_rental_shares vstar feasible_vstar 0 (by decide)⟩

/-- C9: the allocation constant `d` is identically 1, so at every feasible
point every interest-vehicle new-investment flow is 0 and every
interest-vehicle balance stays at its initial value in every period. -/
theorem C9_interest_vehicle_frozen (v : Assignment) (hv : Feasible v)
    (q : Person) (y : ℕ) (hy : y < Y) :
    d q y = 1 ∧ v.F q .i y = 0 ∧ v.A q .i y = A0 q .i := by
  have hF : ∀ z, z < Y → v.F q .i z = 0 := by
    intro z hz
    have h := hv.inv_i q z hz
    simp only [d] at h
    simpa using h
  refine ⟨rfl, hF y hy, ?_⟩
  have hA : ∀ z, z < Y → v.A q .i z = A0 q .i := by
    intro z
    induction z with
    | zero => exact fun _ => hv.init q Investment.i
    | succ n ih =>
        intro hz
        have hn : n < Y := Nat.lt_of_succ_lt hz
        have hw := hv.wealth_i q (n + 1) hz (Nat.succ_pos n)
        rw [Nat.add_sub_cancel] at hw
        rw [hw, hF (n + 1) hz, ih hn, add_zero]
  exact hA y hy

/-- Witness for C9: the concrete feasible point, person `m`, final year. -/
theorem C9_interest_vehicle_frozen_witness :
    Feasible vstar ∧ 10 < Y ∧
      (d Person.m 10 = 1 ∧ vstar.F Person.m Investment.i 10 = 0 ∧
        vstar.A Person.m Investment.i 10 = A0 Person.m Investment.i) :=
  ⟨feasible_vstar, by decide,
    C9_interest_vehicle_frozen vstar feasible_vstar Person.m 10 (by decide)⟩

/-- C10: the built model admits feasible points in which the non-senior
person `n` receives strictly positive home-rental income (`vstar` gives `n`
1000 of home rental in every year; `n`'s home-rental variable has only its
declared lower bound 0 and appears in no pinning equality). -/
theorem C10_nonsenior_home_rental_positive :
    Feasible vstar ∧ 0 < vstar.HR Person.n 0 :=
  ⟨feasible_vstar, by norm_num⟩

end TaxMin
